import Mathlib

/-!
Verification of the SolidWorks-API-Collection tank-design repository.

Shallow embedding of the Python sources:
* `src/professional_tank_design_system.py` — `ProfessionalTankDesigner`
  dimension calculation and the capacity-match verdict of
  `generate_comprehensive_report`.
* `src/main.py` / `src/documentation_server.py` — the HTTP handlers
  (`do_GET` dispatch, `serve_document`) and the server start-up effects.
* `src/final_step_generator.py` — `export_step_file` fallback chain.
* `src/simple_pdf_generator.py` — `markdown_to_pdf` and `main`.

Python floats are idealised as exact real numbers; a Python operation
that can raise an exception is modelled as an `Except Unit` value, and
the file system is passed in as explicit functions.
-/

namespace TankDesign

/-! ## Embedding of `professional_tank_design_system.py`

`ProfessionalTankDesigner.__init__` stores the engineering constants and
then calls `_calculate_optimal_dimensions`, which sets the attributes
`tank_diameter`, `tank_length`, `actual_capacity`, `shell_thickness`,
`knuckle_radius` and `crown_radius` (lines 127-163 of the source).  We
collect those attributes in a record. -/

structure TankDims where
  tank_diameter : ℝ
  tank_length : ℝ
  actual_capacity : ℝ
  shell_thickness : ℝ
  knuckle_radius : ℝ
  crown_radius : ℝ

/-- `self.safety_factors` dictionary from `__init__` (lines 92-98). -/
structure SafetyFactors where
  shell : ℝ
  ends : ℝ
  nozzles : ℝ
  supports : ℝ
  lifting_lugs : ℝ

/-- Hard-coded safety-factor constants from `__init__`. -/
def safety_factors : SafetyFactors :=
  { shell := 2.0, ends := 2.0, nozzles := 2.5, supports := 3.0, lifting_lugs := 4.0 }

/-- `material_properties['yield_strength']` (line 102), in MPa. -/
def yield_strength : ℝ := 300

/-- `self.design_pressure` (line 111), in psig. -/
def design_pressure : ℝ := 2.5

open Classical in
/-- Embedding of `ProfessionalTankDesigner._calculate_optimal_dimensions`
(source lines 127-163).  `capacity_liters` is the constructor argument;
`volume_m3 = capacity_liters / 1000` matches `self.capacity_m3`. -/
noncomputable def calculate_optimal_dimensions (capacity_liters : ℝ) : TankDims :=
  let inStandard := 8000 ≤ capacity_liters ∧ capacity_liters ≤ 12000
  let volume_m3 := capacity_liters / 1000
  let tank_diameter : ℝ :=
    if inStandard then 1870.0
    else ((volume_m3 * 2 / Real.pi) ^ ((1 : ℝ) / 3)) * 1000
  let tank_length : ℝ := if inStandard then 3680.0 else 2 * tank_diameter
  let actual_capacity : ℝ := if inStandard then 9000 else capacity_liters
  let pressure_mpa := design_pressure * 0.00689476
  let radius_m := (tank_diameter / 2) / 1000
  let allowable_stress := yield_strength * 0.4
  let joint_efficiency : ℝ := 0.85
  let corrosion_allowance : ℝ := 1.5
  let calculated_thickness :=
    ((pressure_mpa * radius_m * 1000) /
      (allowable_stress * joint_efficiency - 0.6 * pressure_mpa)) + corrosion_allowance
  let minimum_thickness : ℝ := 6.0
  let shell_thickness := max calculated_thickness minimum_thickness
  let knuckle_radius := max 60.0 (tank_diameter * 0.06)
  let crown_radius := tank_diameter
  ⟨tank_diameter, tank_length, actual_capacity, shell_thickness, knuckle_radius, crown_radius⟩

/-- Embedding of the `Calculated Volume` expression printed by
`generate_comprehensive_report` (source line 581):
`math.pi * (self.tank_diameter/2000)**2 * (self.tank_length/1000)`. -/
noncomputable def calculated_volume (capacity_liters : ℝ) : ℝ :=
  Real.pi * ((calculate_optimal_dimensions capacity_liters).tank_diameter / 2000) ^ 2 *
    ((calculate_optimal_dimensions capacity_liters).tank_length / 1000)

/-- `self.capacity_m3 = capacity_liters / 1000` (source line 89). -/
noncomputable def capacity_m3 (capacity_liters : ℝ) : ℝ := capacity_liters / 1000

open Classical in
/-- Embedding of the `Capacity Match` verdict printed by
`generate_comprehensive_report` (source line 583):
`'✓ PASS' if abs(volume - self.capacity_m3) < 0.5 else '✗ FAIL'`. -/
noncomputable def capacity_match_verdict (capacity_liters : ℝ) : String :=
  if |calculated_volume capacity_liters - capacity_m3 capacity_liters| < 0.5 then
    "✓ PASS"
  else
    "✗ FAIL"

end TankDesign

namespace PyStr

/-! ## Models of the Python `str` methods used by the handlers

Lean's built-in `String` functions are defined by well-founded recursion
and do not reduce inside the kernel, so the `str` methods the handlers
use are modelled here by structurally recursive functions on the
character list of the string, with Python's semantics. -/

/-- Python `s.startswith(pre)`. -/
def pyStartsWith (s pre : String) : Bool := pre.data.isPrefixOf s.data

/-- Python `s.endswith(suffix)`. -/
def pyEndsWith (s suffi : String) : Bool := suffi.data.reverse.isPrefixOf s.data.reverse

/-- Splits a character list at every occurrence of `sep`, keeping empty
pieces, as Python `str.split` with a one-character separator does. -/
def splitChar (sep : Char) : List Char → List (List Char)
  | [] => [[]]
  | c :: cs =>
    let rest := splitChar sep cs
    if c = sep then [] :: rest
    else
      match rest with
      | [] => [[c]]
      | r :: rs => (c :: r) :: rs

/-- Python `s.split(sep)` for a one-character separator. -/
def pySplit (s : String) (sep : Char) : List String :=
  (splitChar sep s.data).map (fun cs => String.mk cs)

/-- Replaces non-overlapping occurrences of `old` left to right; `fuel`
bounds the recursion (each step consumes one unit and at least one
character, so `s.length` fuel always suffices). -/
def pyReplaceAux (old new : List Char) : Nat → List Char → List Char
  | _, [] => []
  | 0, s => s
  | fuel + 1, c :: cs =>
    if old.isPrefixOf (c :: cs) && !old.isEmpty then
      new ++ pyReplaceAux old new fuel (List.drop (old.length - 1) cs)
    else
      c :: pyReplaceAux old new fuel cs

/-- Python `s.replace(old, new)`: every non-overlapping occurrence of
`old`, scanned left to right, is replaced by `new`. -/
def pyReplace (s old new : String) : String :=
  String.mk (pyReplaceAux old.data new.data s.data.length s.data)

end PyStr

namespace DocHandler

open PyStr

/-! ## Embedding of the HTTP request handlers

`ProfessionalDocumentationHandler` in `src/main.py` and
`DocumentationHandler` in `src/documentation_server.py` implement the
same `do_GET` dispatch (main.py lines 20-30, documentation_server.py
lines 21-31) and the same `serve_document` logic (main.py lines 449-635,
documentation_server.py lines 315-431); they differ only in the literal
HTML/CSS of their templates, in the markdown extension list and in the
text of the 404 message, none of which the claims depend on.  The model
below follows `main.py`. -/

/-- The three ways `do_GET` can answer a request. -/
inductive Route where
  | dashboard
  | document (name : String)
  | staticFile
deriving DecidableEq

/-- `path.split('/')[-1]` from `do_GET` (main.py line 27): `split`
never returns an empty list, so `[-1]` is the last element. -/
def lastSegment (path : String) : String := (pySplit path '/').getLastD ""

/-- Embedding of `do_GET` (main.py lines 20-30): the `path` argument is
`urlparse(self.path).path`.  `serve_main_dashboard` answers `/` and
`/index.html`; paths under `/document/` go to `serve_document` with the
last path segment; everything else falls through to
`http.server.SimpleHTTPRequestHandler.do_GET`. -/
def do_GET_route (path : String) : Route :=
  if path = "/" ∨ path = "/index.html" then Route.dashboard
  else if pyStartsWith path "/document/" then Route.document (lastSegment path)
  else Route.staticFile

/-- Outcome of `serve_document`: either a `send_response(200)` with a
content type and body, or a `send_error` with an HTTP status code. -/
inductive DocResponse where
  | ok (contentType : String) (body : String)
  | httpError (code : Nat)
deriving DecidableEq

/-- The `full_html` f-string template of `serve_document` (main.py lines
466-626) with `title` and `html_content` interpolated at the same
places as in the source; the fixed CSS rules and decorative markup
between the interpolation points are elided, since no claim mentions
them. -/
def fullHtml (title html_content : String) : String :=
  "\n<!DOCTYPE html>\n<html>\n<head>\n    <meta charset=\"UTF-8\">\n    <title>"
    ++ title ++
    " - Solprov Engineering</title>\n</head>\n<body>\n    <div class=\"header\">\n        <h1>"
    ++ title ++
    "</h1>\n        <p><strong>Solprov Engineering (Pty) Ltd</strong> | Professional Engineering Solutions</p>\n    </div>\n    \n    <div>\n        "
    ++ html_content ++
    "\n    </div>\n</body>\n</html>"

/-- Embedding of `serve_document` (main.py lines 449-635).
`fileExists` models `os.path.exists`, `readFile` models
`open(filename).read()` (which may raise), and `convertMd` models
`markdown.Markdown(extensions=[...]).convert` (which may raise); any
raised exception inside the `try` block yields `send_error(500)`. -/
def serve_document (fileExists : String → Bool) (readFile : String → Except Unit String)
    (convertMd : String → Except Unit String) (filename : String) : DocResponse :=
  if fileExists filename = false then DocResponse.httpError 404
  else
    match readFile filename with
    | Except.error _ => DocResponse.httpError 500
    | Except.ok content =>
      match (if pyEndsWith filename ".md" then convertMd content
             else Except.ok ("<pre>" ++ content ++ "</pre>")) with
      | Except.error _ => DocResponse.httpError 500
      | Except.ok html_content =>
          DocResponse.ok "text/html; charset=utf-8"
            (fullHtml (pyReplace (pyReplace filename "_" " ") ".md" "") html_content)

end DocHandler

namespace StepGen

/-! ## Embedding of `final_step_generator.py` -/

/-- Embedding of `export_step_file` (source lines 92-113).  The three
alternative export attempts — `build123d.export_step(part, filename)`,
`part_object.export_step(filename)`, and writing
`part_object.to_step()` to the file — are passed in as `Except` values
(`Except.error ()` models the attempt raising an exception).  The nested
`try/except` structure of the source is mirrored by the nested matches:
a later method is consulted only when every earlier one raised. -/
def export_step_file (m_export_step m_part_export_step m_to_step_write : Except Unit Unit) :
    Bool :=
  match m_export_step with
  | Except.ok _ => true
  | Except.error _ =>
    match m_part_export_step with
    | Except.ok _ => true
    | Except.error _ =>
      match m_to_step_write with
      | Except.ok _ => true
      | Except.error _ => false

end StepGen

namespace PdfGen

/-! ## Embedding of `simple_pdf_generator.py` -/

/-- Embedding of `markdown_to_pdf` (source lines 14-123).  The whole
`try` body — imports, file read, markdown conversion, and
`write_pdf` — is abstracted as one fallible `pipeline` value; the
function returns `True` when it completes and `False` when anything in
it raises (`except Exception: return False`). -/
def markdown_to_pdf (pipeline : Except Unit Unit) : Bool :=
  match pipeline with
  | Except.ok _ => true
  | Except.error _ => false

/-- The `documents` list of `main` (source lines 131-138):
`(markdown_file, pdf_filename, title)` triples. -/
def documents : List (String × String × String) :=
  [("Comprehensive_Tank_Design_Deliverable.md",
    "Complete_Professional_Tank_Design_Package.pdf",
    "Complete Professional Tank Design Package"),
   ("Tank_Technical_Specifications.md",
    "Tank_Technical_Specifications.pdf",
    "Tank Technical Specifications"),
   ("Tank_Design_Analysis_Report.md",
    "Tank_Design_Analysis_Report.pdf",
    "Tank Design Analysis Report"),
   ("Tank_Safety_Compliance_Checklist.md",
    "Tank_Safety_Compliance_Checklist.pdf",
    "Tank Safety Compliance Checklist"),
   ("README.md",
    "SolidWorks_API_Collection_Overview.pdf",
    "SolidWorks API Collection Overview"),
   ("DEPLOYMENT_SUMMARY.md",
    "SuperClaude_Deployment_Summary.pdf",
    "SuperClaude Multi-Persona Optimization Summary")]

/-- Embedding of `main` (source lines 125-158).  `fileExists` models
`os.path.exists`; `pipelineOf` gives, per markdown file, the fallible
conversion pipeline passed to `markdown_to_pdf`.  The loop counts the
successful conversions and the function returns `successful == total`
where `total = len(documents)`. -/
def main (fileExists : String → Bool) (pipelineOf : String → Except Unit Unit) : Bool :=
  let successful := documents.foldl
    (fun successful d =>
      if fileExists d.1 then
        if markdown_to_pdf (pipelineOf d.1) then successful + 1 else successful
      else successful) 0
  successful == documents.length

end PdfGen

namespace ServerEffects

/-! ## Effect inventory of the server entry points

To settle the concurrency claim we record, per server entry point, the
sequence of process-level effects the function performs, transcribed
statement by statement from the source. -/

/-- Process-level effects performed by the server entry points. -/
inductive ServerEffect where
  | printLine (s : String)
  | chdirToScriptDir
  | bindServer (host : String) (port : Nat)
  | startThread (daemon : Bool) (body : List ServerEffect)
  | sleepSeconds (n : Nat)
  | openBrowser (url : String)
  | serveForever

/-- Python `s * n` string repetition. -/
def pyStrTimes (s : String) (n : Nat) : String := String.join (List.replicate n s)

/-- Recogniser for thread-creation effects. -/
def isThreadStart : ServerEffect → Bool
  | ServerEffect.startThread _ _ => true
  | _ => false

/-- Number of threads an effect list creates (at its own level). -/
def threadStartCount (effects : List ServerEffect) : Nat := effects.countP isThreadStart

end ServerEffects

namespace DocumentationServer

open ServerEffects

/-- Body of the `open_browser` closure run on the browser thread
(`documentation_server.py` lines 454-456): `time.sleep(2)` then
`webbrowser.open(f'http://localhost:{PORT}')` with `PORT = 8080`. -/
def open_browser_body : List ServerEffect :=
  [ServerEffect.sleepSeconds 2,
   ServerEffect.openBrowser "http://localhost:8080"]

/-- Effect trace of `start_server` (`documentation_server.py` lines
433-470), with `PORT = 8080`: the banner prints, `os.chdir`, the
`TCPServer` bind, the daemon browser-opening thread
(`threading.Thread(target=open_browser)`, `daemon = True`, `start()`),
and `serve_forever`. -/
def start_server_effects : List ServerEffect :=
  [ServerEffect.printLine (pyStrTimes "=" 50),
   ServerEffect.printLine "SOLPROV ENGINEERING - DOCUMENTATION SERVER",
   ServerEffect.printLine (pyStrTimes "=" 50),
   ServerEffect.printLine "Professional Tank Design System",
   ServerEffect.printLine "ISO 9001 Certified | SAIME & SAQI Standards",
   ServerEffect.printLine (pyStrTimes "=" 50),
   ServerEffect.printLine "",
   ServerEffect.printLine "Starting server on http://localhost:8080",
   ServerEffect.printLine "Complete documentation package available",
   ServerEffect.printLine "PDF export via browser print function",
   ServerEffect.printLine "",
   ServerEffect.chdirToScriptDir,
   ServerEffect.bindServer "" 8080,
   ServerEffect.printLine "Server running at http://localhost:8080",
   ServerEffect.printLine "Opening browser...",
   ServerEffect.startThread true open_browser_body,
   ServerEffect.printLine "\nServer Status: ACTIVE",
   ServerEffect.printLine "Press Ctrl+C to stop server",
   ServerEffect.printLine (pyStrTimes "=" 50),
   ServerEffect.serveForever]

end DocumentationServer

namespace MainPy

open ServerEffects

/-- Effect trace of `main` in `src/main.py` (lines 637-665), with
`port = int(os.environ.get('PORT', 8080))` passed in: banner prints,
`os.chdir`, the `TCPServer` bind on `0.0.0.0`, and `serve_forever`.
No thread is created here. -/
def main_effects (port : Nat) : List ServerEffect :=
  [ServerEffect.printLine (pyStrTimes "=" 60),
   ServerEffect.printLine "SOLPROV ENGINEERING - PROFESSIONAL DOCUMENTATION SYSTEM",
   ServerEffect.printLine (pyStrTimes "=" 60),
   ServerEffect.printLine "Professional Tank Design System",
   ServerEffect.printLine "ISO 9001 Certified | SAIME & SAQI Professional Standards",
   ServerEffect.printLine "SuperClaude Multi-Persona Engineering Excellence",
   ServerEffect.printLine (pyStrTimes "=" 60),
   ServerEffect.printLine "",
   ServerEffect.printLine ("Starting server on port " ++ toString port),
   ServerEffect.printLine "Complete professional documentation package available",
   ServerEffect.printLine "Ready for client delivery and professional review",
   ServerEffect.printLine "",
   ServerEffect.chdirToScriptDir,
   ServerEffect.bindServer "0.0.0.0" port,
   ServerEffect.printLine ("Server running on port " ++ toString port),
   ServerEffect.printLine "Documentation system deployed successfully",
   ServerEffect.printLine (pyStrTimes "=" 60),
   ServerEffect.serveForever]

end MainPy

/-! ## Helper lemmas about the dimension calculation -/

lemma dims_diameter_in_range {c : ℝ} (h1 : 8000 ≤ c) (h2 : c ≤ 12000) :
    (TankDesign.calculate_optimal_dimensions c).tank_diameter = 1870 := by
  unfold TankDesign.calculate_optimal_dimensions
  simp only [if_pos (And.intro h1 h2)]
  norm_num

lemma dims_length_in_range {c : ℝ} (h1 : 8000 ≤ c) (h2 : c ≤ 12000) :
    (TankDesign.calculate_optimal_dimensions c).tank_length = 3680 := by
  unfold TankDesign.calculate_optimal_dimensions
  simp only [if_pos (And.intro h1 h2)]
  norm_num

lemma dims_actual_in_range {c : ℝ} (h1 : 8000 ≤ c) (h2 : c ≤ 12000) :
    (TankDesign.calculate_optimal_dimensions c).actual_capacity = 9000 := by
  unfold TankDesign.calculate_optimal_dimensions
  simp only [if_pos (And.intro h1 h2)]

lemma dims_diameter_out_of_range {c : ℝ} (h : ¬(8000 ≤ c ∧ c ≤ 12000)) :
    (TankDesign.calculate_optimal_dimensions c).tank_diameter =
      ((c / 1000 * 2 / Real.pi) ^ ((1 : ℝ) / 3)) * 1000 := by
  unfold TankDesign.calculate_optimal_dimensions
  simp only [if_neg h]

lemma dims_length_out_of_range {c : ℝ} (h : ¬(8000 ≤ c ∧ c ≤ 12000)) :
    (TankDesign.calculate_optimal_dimensions c).tank_length =
      2 * (TankDesign.calculate_optimal_dimensions c).tank_diameter := by
  unfold TankDesign.calculate_optimal_dimensions
  simp only [if_neg h]

lemma dims_actual_out_of_range {c : ℝ} (h : ¬(8000 ≤ c ∧ c ≤ 12000)) :
    (TankDesign.calculate_optimal_dimensions c).actual_capacity = c := by
  unfold TankDesign.calculate_optimal_dimensions
  simp only [if_neg h]

lemma dims_shell_thickness_def (c : ℝ) :
    (TankDesign.calculate_optimal_dimensions c).shell_thickness =
      max (((TankDesign.design_pressure * 0.00689476 *
              (((TankDesign.calculate_optimal_dimensions c).tank_diameter / 2) / 1000) * 1000) /
            (TankDesign.yield_strength * 0.4 * 0.85 -
              0.6 * (TankDesign.design_pressure * 0.00689476))) + 1.5)
        6.0 := by
  unfold TankDesign.calculate_optimal_dimensions
  by_cases h : 8000 ≤ c ∧ c ≤ 12000 <;> simp only [if_pos, if_neg, h]

lemma dims_knuckle_def (c : ℝ) :
    (TankDesign.calculate_optimal_dimensions c).knuckle_radius =
      max 60.0 ((TankDesign.calculate_optimal_dimensions c).tank_diameter * 0.06) := by
  unfold TankDesign.calculate_optimal_dimensions
  by_cases h : 8000 ≤ c ∧ c ≤ 12000 <;> simp only [if_pos, if_neg, h]

/-- In the standard-size branch the API 650 formula evaluates to about
1.658 mm, so the 6.0 mm SANS minimum governs the selected thickness. -/
lemma dims_shell_thickness_in_range {c : ℝ} (h1 : 8000 ≤ c) (h2 : c ≤ 12000) :
    (TankDesign.calculate_optimal_dimensions c).shell_thickness = 6 := by
  rw [dims_shell_thickness_def, dims_diameter_in_range h1 h2]
  rw [max_eq_right (by norm_num [TankDesign.design_pressure, TankDesign.yield_strength])]
  norm_num

/-! ## Claims about the dimension calculation -/

/-- C1: for every capacity_liters with 8000 <= capacity_liters <= 12000,
`_calculate_optimal_dimensions` sets tank_diameter = 1870.0 mm,
tank_length = 3680.0 mm and actual_capacity = 9000 L (the standard BTA
size); for every capacity outside that range it instead sets
tank_diameter = ((capacity_m3 * 2 / pi) ** (1/3)) * 1000 mm,
tank_length = 2 * tank_diameter, and actual_capacity = capacity_liters. -/
theorem C1_calculate_optimal_dimensions_branches (capacity_liters : ℝ) :
    ((8000 ≤ capacity_liters ∧ capacity_liters ≤ 12000) →
      (TankDesign.calculate_optimal_dimensions capacity_liters).tank_diameter = 1870 ∧
      (TankDesign.calculate_optimal_dimensions capacity_liters).tank_length = 3680 ∧
      (TankDesign.calculate_optimal_dimensions capacity_liters).actual_capacity = 9000) ∧
    (¬(8000 ≤ capacity_liters ∧ capacity_liters ≤ 12000) →
      (TankDesign.calculate_optimal_dimensions capacity_liters).tank_diameter =
        ((capacity_liters / 1000 * 2 / Real.pi) ^ ((1 : ℝ) / 3)) * 1000 ∧
      (TankDesign.calculate_optimal_dimensions capacity_liters).tank_length =
        2 * (TankDesign.calculate_optimal_dimensions capacity_liters).tank_diameter ∧
      (TankDesign.calculate_optimal_dimensions capacity_liters).actual_capacity =
        capacity_liters) := by
  constructor
  · intro h
    exact ⟨dims_diameter_in_range h.1 h.2, dims_length_in_range h.1 h.2,
      dims_actual_in_range h.1 h.2⟩
  · intro h
    exact ⟨dims_diameter_out_of_range h, dims_length_out_of_range h,
      dims_actual_out_of_range h⟩

theorem C1_calculate_optimal_dimensions_branches_witness :
    ((8000 : ℝ) ≤ 9000 ∧ (9000 : ℝ) ≤ 12000) ∧
    (TankDesign.calculate_optimal_dimensions 9000).tank_diameter = 1870 ∧
    ¬((8000 : ℝ) ≤ 1000 ∧ (1000 : ℝ) ≤ 12000) ∧
    (TankDesign.calculate_optimal_dimensions 1000).actual_capacity = 1000 := by
  refine ⟨by norm_num, ?_, by norm_num, ?_⟩
  · exact ((C1_calculate_optimal_dimensions_branches 9000).1 (by norm_num)).1
  · exact ((C1_calculate_optimal_dimensions_branches 1000).2 (by norm_num)).2.2

/-- C9: for every capacity_liters, after construction the invariants
shell_thickness >= 6.0 mm and knuckle_radius >= 60.0 mm hold
(shell_thickness is the max of the API-650 formula result and the
6.0 mm minimum; knuckle_radius is the max of 60.0 and
0.06 * tank_diameter). -/
theorem C9_minimum_thickness_and_knuckle_invariants (capacity_liters : ℝ) :
    6 ≤ (TankDesign.calculate_optimal_dimensions capacity_liters).shell_thickness ∧
    60 ≤ (TankDesign.calculate_optimal_dimensions capacity_liters).knuckle_radius := by
  constructor
  · rw [dims_shell_thickness_def]
    have h := le_max_right
      (((TankDesign.design_pressure * 0.00689476 *
          (((TankDesign.calculate_optimal_dimensions capacity_liters).tank_diameter / 2) / 1000)
            * 1000) /
        (TankDesign.yield_strength * 0.4 * 0.85 -
          0.6 * (TankDesign.design_pressure * 0.00689476))) + 1.5) (6.0 : ℝ)
    linarith [h]
  · rw [dims_knuckle_def]
    have h := le_max_left (60.0 : ℝ)
      ((TankDesign.calculate_optimal_dimensions capacity_liters).tank_diameter * 0.06)
    linarith [h]

/-- C2 counterexample: the claim that no dimension is the result of a
formula evaluated at run time is false.  At capacity 1000 L (outside the
standard 8000-12000 L range) `_calculate_optimal_dimensions` computes
the tank diameter by evaluating the L/D = 2 cube-root formula, and the
result is not the hard-coded standard-table diameter 1870 mm. -/
theorem C2_dimensions_from_formula_counterexample :
    (TankDesign.calculate_optimal_dimensions 1000).tank_diameter =
      (((1000 : ℝ) / 1000 * 2 / Real.pi) ^ ((1 : ℝ) / 3)) * 1000 ∧
    (TankDesign.calculate_optimal_dimensions 1000).tank_diameter ≠ 1870 := by
  have hrange : ¬((8000 : ℝ) ≤ 1000 ∧ (1000 : ℝ) ≤ 12000) := by norm_num
  have hform := dims_diameter_out_of_range hrange
  refine ⟨hform, ?_⟩
  have hπ : (2 : ℝ) < Real.pi := by linarith [Real.pi_gt_three]
  have hx0 : (0 : ℝ) ≤ (1000 : ℝ) / 1000 * 2 / Real.pi := by positivity
  have hx1 : (1000 : ℝ) / 1000 * 2 / Real.pi < 1 := by
    rw [div_lt_one Real.pi_pos]
    linarith
  have hlt : (((1000 : ℝ) / 1000 * 2 / Real.pi) ^ ((1 : ℝ) / 3)) < 1 :=
    Real.rpow_lt_one hx0 hx1 (by norm_num)
  rw [hform]
  intro habs
  nlinarith [hlt]

/-- C2 amended: for every capacity in the standard 8000-12000 L range,
the dimensions delivered by the design generator are the hard-coded
standard-table constants (diameter 1870 mm, length 3680 mm, nominal
capacity 9000 L), the hard-coded 6.0 mm minimum governs the shell
thickness (the API 650 formula evaluates below it), and the safety
factors are the hard-coded constants; only capacities outside that
range get dimensions computed by the run-time cube-root formula. -/
theorem C2_standard_range_constants (capacity_liters : ℝ)
    (h1 : 8000 ≤ capacity_liters) (h2 : capacity_liters ≤ 12000) :
    (TankDesign.calculate_optimal_dimensions capacity_liters).tank_diameter = 1870 ∧
    (TankDesign.calculate_optimal_dimensions capacity_liters).tank_length = 3680 ∧
    (TankDesign.calculate_optimal_dimensions capacity_liters).actual_capacity = 9000 ∧
    (TankDesign.calculate_optimal_dimensions capacity_liters).shell_thickness = 6 ∧
    TankDesign.safety_factors =
      { shell := 2, ends := 2, nozzles := 2.5, supports := 3, lifting_lugs := 4 } :=
  ⟨dims_diameter_in_range h1 h2, dims_length_in_range h1 h2,
    dims_actual_in_range h1 h2, dims_shell_thickness_in_range h1 h2, by
      simp only [TankDesign.safety_factors, TankDesign.SafetyFactors.mk.injEq]
      norm_num⟩

theorem C2_standard_range_constants_witness :
    (8000 : ℝ) ≤ 10000 ∧ (10000 : ℝ) ≤ 12000 ∧
    (TankDesign.calculate_optimal_dimensions 10000).tank_diameter = 1870 ∧
    (TankDesign.calculate_optimal_dimensions 10000).shell_thickness = 6 := by
  refine ⟨by norm_num, by norm_num, ?_, ?_⟩
  · exact (C2_standard_range_constants 10000 (by norm_num) (by norm_num)).1
  · exact (C2_standard_range_constants 10000 (by norm_num) (by norm_num)).2.2.2.1

/-- C10: `generate_comprehensive_report` prints its Capacity Match
verdict as PASS if and only if
|pi * (tank_diameter/2000)^2 * (tank_length/1000) - capacity_liters/1000| < 0.5;
because the comparison uses the requested capacity_liters rather than
actual_capacity, for some capacity in the standard range 8000-12000 L
(namely 9000 L, whose fixed dimensions give about 10.1 m^3) the verdict
is FAIL. -/
theorem C10_capacity_match_verdict :
    (∀ capacity_liters : ℝ,
      TankDesign.capacity_match_verdict capacity_liters = "✓ PASS" ↔
        |Real.pi * ((TankDesign.calculate_optimal_dimensions capacity_liters).tank_diameter
              / 2000) ^ 2 *
            ((TankDesign.calculate_optimal_dimensions capacity_liters).tank_length / 1000) -
          capacity_liters / 1000| < 0.5) ∧
    ((8000 : ℝ) ≤ 9000 ∧ (9000 : ℝ) ≤ 12000 ∧
      TankDesign.capacity_match_verdict 9000 = "✗ FAIL") := by
  constructor
  · intro c
    have hdef : (|Real.pi *
          ((TankDesign.calculate_optimal_dimensions c).tank_diameter / 2000) ^ 2 *
          ((TankDesign.calculate_optimal_dimensions c).tank_length / 1000) - c / 1000|) =
        |TankDesign.calculated_volume c - TankDesign.capacity_m3 c| := rfl
    rw [hdef]
    by_cases h : |TankDesign.calculated_volume c - TankDesign.capacity_m3 c| < 0.5
    · rw [TankDesign.capacity_match_verdict, if_pos h]
      exact iff_of_true rfl h
    · rw [TankDesign.capacity_match_verdict, if_neg h]
      exact iff_of_false (by decide) h
  · refine ⟨by norm_num, by norm_num, ?_⟩
    have hv : TankDesign.calculated_volume 9000 =
        Real.pi * ((1870 : ℝ) / 2000) ^ 2 * ((3680 : ℝ) / 1000) := by
      unfold TankDesign.calculated_volume
      rw [dims_diameter_in_range (by norm_num) (by norm_num),
        dims_length_in_range (by norm_num) (by norm_num)]
    have hgt : (0.5 : ℝ) ≤ TankDesign.calculated_volume 9000 - TankDesign.capacity_m3 9000 := by
      rw [hv]
      unfold TankDesign.capacity_m3
      nlinarith [Real.pi_gt_three]
    have hnot : ¬(|TankDesign.calculated_volume 9000 - TankDesign.capacity_m3 9000| < 0.5) :=
      not_lt.mpr (le_trans hgt (le_abs_self _))
    rw [TankDesign.capacity_match_verdict, if_neg hnot]

/-! ## Claims about the HTTP handlers -/

/-- C3: for every GET request handled by the documentation server, if
the request path is '/' or '/index.html' the handler responds with the
dashboard HTML page; if the path starts with '/document/' the handler
serves the document named by the last '/'-separated segment of the
path; for every other path the request is delegated to the standard
static-file handler. -/
theorem C3_do_GET_dispatch (path : String) :
    ((path = "/" ∨ path = "/index.html") →
      DocHandler.do_GET_route path = DocHandler.Route.dashboard) ∧
    (path ≠ "/" → path ≠ "/index.html" → PyStr.pyStartsWith path "/document/" = true →
      DocHandler.do_GET_route path =
        DocHandler.Route.document ((PyStr.pySplit path '/').getLastD "")) ∧
    (path ≠ "/" → path ≠ "/index.html" → PyStr.pyStartsWith path "/document/" = false →
      DocHandler.do_GET_route path = DocHandler.Route.staticFile) := by
  refine ⟨fun h => ?_, fun h1 h2 h3 => ?_, fun h1 h2 h3 => ?_⟩
  · rw [DocHandler.do_GET_route, if_pos h]
  · rw [DocHandler.do_GET_route, DocHandler.lastSegment,
      if_neg (by rintro (h | h) <;> [exact h1 h; exact h2 h]), if_pos h3]
  · rw [DocHandler.do_GET_route,
      if_neg (by rintro (h | h) <;> [exact h1 h; exact h2 h]),
      if_neg (by simp [h3])]

theorem C3_do_GET_dispatch_witness :
    DocHandler.do_GET_route "/document/Tank_Technical_Specifications.md" =
      DocHandler.Route.document "Tank_Technical_Specifications.md" := by
  have h := (C3_do_GET_dispatch "/document/Tank_Technical_Specifications.md").2.1
    (by decide) (by decide) (by decide)
  rw [h]
  rfl

/-- C4: for every existing document file served via serve_document, if
the filename ends with '.md' the file content is converted to HTML with
the markdown library before being embedded in the styled page template,
and otherwise the raw content is embedded wrapped in a <pre> element;
in both cases the response status is 200 with Content-type
'text/html; charset=utf-8' and the page title is the filename with '_'
replaced by ' ' and '.md' removed. -/
theorem C4_serve_document_success (fileExists : String → Bool)
    (readFile convertMd : String → Except Unit String) (filename content : String)
    (hfe : fileExists filename = true) (hrf : readFile filename = Except.ok content) :
    (∀ html, PyStr.pyEndsWith filename ".md" = true → convertMd content = Except.ok html →
      DocHandler.serve_document fileExists readFile convertMd filename =
        DocHandler.DocResponse.ok "text/html; charset=utf-8"
          (DocHandler.fullHtml (PyStr.pyReplace (PyStr.pyReplace filename "_" " ") ".md" "") html)) ∧
    (PyStr.pyEndsWith filename ".md" = false →
      DocHandler.serve_document fileExists readFile convertMd filename =
        DocHandler.DocResponse.ok "text/html; charset=utf-8"
          (DocHandler.fullHtml (PyStr.pyReplace (PyStr.pyReplace filename "_" " ") ".md" "")
            ("<pre>" ++ content ++ "</pre>"))) := by
  constructor
  · intro html hmd hcm
    simp [DocHandler.serve_document, hfe, hrf, hmd, hcm]
  · intro hmd
    simp [DocHandler.serve_document, hfe, hrf, hmd]

theorem C4_serve_document_success_witness :
    DocHandler.serve_document (fun _ => true) (fun _ => Except.ok "# Title")
        (fun _ => Except.ok "<h1>Title</h1>") "Tank_Report.md" =
      DocHandler.DocResponse.ok "text/html; charset=utf-8"
        (DocHandler.fullHtml "Tank Report" "<h1>Title</h1>") := by
  have h := (C4_serve_document_success (fun _ => true) (fun _ => Except.ok "# Title")
    (fun _ => Except.ok "<h1>Title</h1>") "Tank_Report.md" "# Title" rfl rfl).1
    "<h1>Title</h1>" (by decide) rfl
  rw [h]
  rfl

/-- C8: serve_document responds with status 404 exactly when the
requested file does not exist on disk, and with status 500 exactly when
reading or converting an existing file raises an exception; in both
error cases no 200 response body is written. -/
theorem C8_serve_document_errors (fileExists : String → Bool)
    (readFile convertMd : String → Except Unit String) (filename : String) :
    (DocHandler.serve_document fileExists readFile convertMd filename =
        DocHandler.DocResponse.httpError 404 ↔ fileExists filename = false) ∧
    (DocHandler.serve_document fileExists readFile convertMd filename =
        DocHandler.DocResponse.httpError 500 ↔
      fileExists filename = true ∧
        (readFile filename = Except.error () ∨
          (∃ content, readFile filename = Except.ok content ∧
            PyStr.pyEndsWith filename ".md" = true ∧ convertMd content = Except.error ()))) ∧
    (∀ code, DocHandler.serve_document fileExists readFile convertMd filename =
        DocHandler.DocResponse.httpError code →
      ∀ contentType body,
        DocHandler.serve_document fileExists readFile convertMd filename ≠
          DocHandler.DocResponse.ok contentType body) := by
  refine ⟨?_, ?_, ?_⟩
  case refine_3 =>
    intro code hcode contentType body habs
    rw [hcode] at habs
    exact DocHandler.DocResponse.noConfusion habs
  all_goals
    cases hfe : fileExists filename with
    | false => simp [DocHandler.serve_document, hfe]
    | true =>
      cases hrf : readFile filename with
      | error e =>
        cases e
        simp [DocHandler.serve_document, hfe, hrf]
      | ok content =>
        cases hmd : PyStr.pyEndsWith filename ".md" with
        | false => simp [DocHandler.serve_document, hfe, hrf, hmd]
        | true =>
          cases hcm : convertMd content with
          | error e =>
            cases e
            simp [DocHandler.serve_document, hfe, hrf, hmd, hcm]
          | ok html => simp [DocHandler.serve_document, hfe, hrf, hmd, hcm]

theorem C8_serve_document_errors_witness :
    DocHandler.serve_document (fun _ => false) (fun _ => Except.ok "")
        (fun _ => Except.ok "") "missing.md" = DocHandler.DocResponse.httpError 404 ∧
    DocHandler.serve_document (fun _ => true) (fun _ => Except.error ())
        (fun _ => Except.ok "") "broken.md" = DocHandler.DocResponse.httpError 500 := by
  constructor
  · exact (C8_serve_document_errors (fun _ => false) (fun _ => Except.ok "")
      (fun _ => Except.ok "") "missing.md").1.mpr rfl
  · exact (C8_serve_document_errors (fun _ => true) (fun _ => Except.error ())
      (fun _ => Except.ok "") "broken.md").2.1.mpr ⟨rfl, Or.inl rfl⟩

/-! ## Claims about the STEP exporter, the PDF generator and concurrency -/

/-- C5: export_step_file tries three alternative export methods in
order — build123d.export_step(part, filename), then
part_object.export_step(filename), then writing part_object.to_step()
directly to the file — returning True as soon as one succeeds, and
returns False only when all three raise; it never propagates an
exception to its caller (the embedding is a total function returning a
Bool for every combination of raising and succeeding attempts). -/
theorem C5_export_step_file_fallbacks (m1 m2 m3 : Except Unit Unit) :
    (StepGen.export_step_file m1 m2 m3 = true ↔
      m1 = Except.ok () ∨
        (m1 = Except.error () ∧
          (m2 = Except.ok () ∨ (m2 = Except.error () ∧ m3 = Except.ok ())))) ∧
    (StepGen.export_step_file m1 m2 m3 = false ↔
      m1 = Except.error () ∧ m2 = Except.error () ∧ m3 = Except.error ()) := by
  rcases m1 with ⟨⟩ | ⟨⟩ <;> rcases m2 with ⟨⟩ | ⟨⟩ <;> rcases m3 with ⟨⟩ | ⟨⟩ <;>
    simp [StepGen.export_step_file]

theorem C5_export_step_file_fallbacks_witness :
    StepGen.export_step_file (Except.error ()) (Except.ok ()) (Except.error ()) = true ∧
    StepGen.export_step_file (Except.error ()) (Except.error ()) (Except.error ()) = false := by
  constructor
  · exact (C5_export_step_file_fallbacks (Except.error ()) (Except.ok ())
      (Except.error ())).1.mpr (Or.inr ⟨rfl, Or.inl rfl⟩)
  · exact (C5_export_step_file_fallbacks (Except.error ()) (Except.error ())
      (Except.error ())).2.mpr ⟨rfl, rfl, rfl⟩

/-- C6: simple_pdf_generator.main returns True if and only if every one
of the six listed markdown files exists and its markdown_to_pdf
conversion succeeds; a missing file or a conversion that raises
(markdown_to_pdf returning False) makes the overall result False, and
markdown_to_pdf itself never propagates an exception (it returns False
on a raising pipeline and True on a completing one). -/
theorem C6_simple_pdf_main (fileExists : String → Bool)
    (pipelineOf : String → Except Unit Unit) :
    (PdfGen.main fileExists pipelineOf = true ↔
      ∀ d ∈ PdfGen.documents,
        fileExists d.1 = true ∧ PdfGen.markdown_to_pdf (pipelineOf d.1) = true) ∧
    (PdfGen.markdown_to_pdf (Except.error ()) = false ∧
      PdfGen.markdown_to_pdf (Except.ok ()) = true) := by
  refine ⟨?_, rfl, rfl⟩
  have key : ∀ (l : List (String × String × String)) (n : ℕ),
      l.foldl
          (fun successful d =>
            if fileExists d.1 then
              if PdfGen.markdown_to_pdf (pipelineOf d.1) then successful + 1 else successful
            else successful) n
        = n + l.countP (fun d => fileExists d.1 && PdfGen.markdown_to_pdf (pipelineOf d.1)) := by
    intro l
    induction l with
    | nil => intro n; simp
    | cons a t ih =>
      intro n
      by_cases h1 : fileExists a.1 <;>
        by_cases h2 : PdfGen.markdown_to_pdf (pipelineOf a.1) <;>
          (simp [List.countP_cons, h1, h2, ih]; try omega)
  rw [PdfGen.main, key, Nat.zero_add, beq_iff_eq, List.countP_eq_length]
  constructor
  · intro h d hd
    have := h d hd
    simpa [Bool.and_eq_true] using this
  · intro h d hd
    simpa [Bool.and_eq_true] using h d hd

theorem C6_simple_pdf_main_witness :
    PdfGen.main (fun _ => true) (fun _ => Except.ok ()) = true := by
  exact (C6_simple_pdf_main (fun _ => true) (fun _ => Except.ok ())).1.mpr
    (fun d _ => ⟨rfl, rfl⟩)

/-- C7 counterexample: the claim that no component creates its own
threads beyond the standard request-handling framework is false:
`start_server` in `documentation_server.py` itself creates and starts a
`threading.Thread` (the browser-opening daemon thread, lines 458-460),
so its effect trace contains a thread creation. -/
theorem C7_no_custom_threads_counterexample :
    ServerEffects.threadStartCount DocumentationServer.start_server_effects ≠ 0 := by
  decide

/-- C7 amended: the only custom thread in the program is the single
daemon browser-opening thread created by
`documentation_server.start_server`; its body merely sleeps two seconds
and opens the browser, `main` in `main.py` creates no thread at all,
and no other coordination between threads exists in the repository. -/
theorem C7_single_browser_thread :
    ServerEffects.threadStartCount DocumentationServer.start_server_effects = 1 ∧
    DocumentationServer.start_server_effects.filter ServerEffects.isThreadStart =
      [ServerEffects.ServerEffect.startThread true DocumentationServer.open_browser_body] ∧
    (∀ port : Nat, ServerEffects.threadStartCount (MainPy.main_effects port) = 0) := by
  exact ⟨rfl, rfl, fun _ => rfl⟩
